import Mathlib

/-!
Shallow embedding of the PDF retrieval-augmented chatbot
(`pdf_processor.py` and `chatbot.py`).

`pdf_processor.py` defines `PDFProcessor` with operations
`extract_text_from_pdf`, `create_documents`, `create_vector_store`,
`load_vector_store` and `process_pdf`.  The text splitting and the vector
store (Chroma) are external library capabilities; where a claim depends on
their behaviour they are modelled from the spec (marked in doc comments).
External effects (the filesystem, the PDF reader, the embedding API) are
modelled as an explicit world state `PDFState` passed to the operations,
and exceptions as `Except` values.
-/

namespace PdfChatbot

/-- Configuration error of the chunker: the spec's `ConfigError`,
raised when `overlap >= maxSize`. -/
inductive ConfigError
| overlapTooLarge
deriving DecidableEq

/-- Errors of loading a persisted vector store (`load_vector_store`):
`notFound` models the `FileNotFoundError` raised when the persist
directory does not exist (the spec's `NotFoundError`); `corrupt` models a
failure inside the external store's constructor on a present but
unreadable/corrupt persisted index (the spec's `IndexCorruptError`). -/
inductive LoadError
| notFound
| corrupt
deriving DecidableEq

/-- Errors of the full rebuild path of `process_pdf`:
extraction failure (unreadable PDF, the spec's `ExtractionError`) or an
embedding-capability failure during `create_vector_store`
(the spec's `EmbeddingError`). -/
inductive BuildError
| extractionFailed
| embeddingFailed
deriving DecidableEq

/-- A text chunk (`langchain` `Document`): `create_documents` builds one
per split chunk, holding only `page_content`. -/
structure Chunk where
  page_content : String
deriving DecidableEq

/-- A vector-store handle (`Chroma`): the stored chunk texts and the
identifier of the embedding function bound to the handle
(`embedding_function=OpenAIEmbeddings()` at the call site). -/
structure VectorStore where
  docs : List String
  embedder : String
deriving DecidableEq

/-- What is persisted at `persist_directory`: the stored chunk texts, the
embedder identifier recorded in the persisted metadata, and whether the
persisted data is well formed (readable by the external store's
constructor). -/
structure PersistedIndex where
  docs : List String
  recordedEmbedder : String
  wellFormed : Bool
deriving DecidableEq

/-- The world `PDFProcessor` acts on: the pages of the PDF at `pdf_path`
(`none` = the PDF cannot be opened or parsed), what is persisted at
`persist_directory` (`none` = the directory does not exist), and whether
the embedding capability is currently available. -/
structure PDFState where
  pdfPages : Option (List String)
  persisted : Option PersistedIndex
  embedOk : Bool
deriving DecidableEq

/-! ### Chunker

The splitter used by the source is `RecursiveCharacterTextSplitter`
from the `langchain` library, whose code is not part of this repository.
Modelled from the spec: greedy windowing that breaks at the natural
boundary (paragraph, then sentence, then whitespace) closest to `maxSize`
within the lookback window `(overlap, maxSize]`, hard-splitting at
`maxSize` when no boundary exists there; the next window starts `overlap`
characters before the end of the previous chunk; `overlap >= maxSize` is
rejected as a `ConfigError` at construction time, before any I/O. -/

/-- Largest position `j` with `lo < j ≤ hi` such that the character just
before `j` satisfies `p`, scanning downward from `hi`. -/
def lastBreakBefore (p : Char → Bool) (cs : List Char) (lo : Nat) : Nat → Option Nat
| 0 => none
| i + 1 =>
  if i + 1 ≤ lo then none
  else if p (cs.getD i ' ') then some (i + 1)
  else lastBreakBefore p cs lo i

/-- The boundary of the highest-priority kind (paragraph approximated by
a newline, then sentence end `.`, then whitespace) closest to `hi` in the
window `(lo, hi]` of `cs`, defaulting to a hard split at `hi`. -/
def rawBreak (cs : List Char) (lo hi : Nat) : Nat :=
  match lastBreakBefore (fun c => c = '\n') cs lo hi with
  | some j => j
  | none =>
    match lastBreakBefore (fun c => c = '.') cs lo hi with
    | some j => j
    | none =>
      match lastBreakBefore (fun c => c = ' ') cs lo hi with
      | some j => j
      | none => hi

/-- The break position for the window `(lo, hi]` of `cs`: `rawBreak`,
clamped into `(lo, hi]` (a no-op on the searched candidates, which
already lie in that window). -/
def chooseBreak (cs : List Char) (lo hi : Nat) : Nat :=
  min hi (max (lo + 1) (rawBreak cs lo hi))

/-- Modelled from the spec: the Chunker's greedy windowing.  Empty text
yields no chunk; text of at most `maxSize` characters is a single chunk;
otherwise the chunk ends at `chooseBreak` and the next window starts
`overlap` characters before that end. -/
def splitChunks (maxSize overlap : Nat) (h : overlap < maxSize) (cs : List Char) :
    List (List Char) :=
  if cs.isEmpty then []
  else if cs.length ≤ maxSize then [cs]
  else
    cs.take (chooseBreak cs overlap maxSize) ::
      splitChunks maxSize overlap h (cs.drop (chooseBreak cs overlap maxSize - overlap))
termination_by cs.length
decreasing_by
  have hb : overlap < chooseBreak cs overlap maxSize ∧
      chooseBreak cs overlap maxSize ≤ maxSize := by
    unfold chooseBreak
    omega
  simp only [List.length_drop]
  omega

/-- The splitter configuration (`RecursiveCharacterTextSplitter`-style):
carries the proof that the configuration was validated. -/
structure TextSplitter where
  chunk_size : Nat
  chunk_overlap : Nat
  valid : chunk_overlap < chunk_size

/-- Modelled from the spec: constructing a splitter validates the
configuration before any I/O, rejecting `overlap >= maxSize`. -/
def mkTextSplitter (chunk_size chunk_overlap : Nat) : Except ConfigError TextSplitter :=
  if h : chunk_size ≤ chunk_overlap then .error .overlapTooLarge
  else .ok ⟨chunk_size, chunk_overlap, Nat.lt_of_not_le h⟩

/-- `split_text` of a validated splitter. -/
def split_text (sp : TextSplitter) (cs : List Char) : List (List Char) :=
  splitChunks sp.chunk_size sp.chunk_overlap sp.valid cs

/-- The chunker's full `split(text, maxSize, overlap)` operation:
configuration check, then greedy windowing. -/
def split (maxSize overlap : Nat) (cs : List Char) :
    Except ConfigError (List (List Char)) :=
  (mkTextSplitter maxSize overlap).map fun sp => split_text sp cs

/-- The splitter `PDFProcessor.__init__` constructs:
`chunk_size=1000, chunk_overlap=200`. -/
def pdf_text_splitter : TextSplitter :=
  ⟨1000, 200, by omega⟩

/-! ### Text Extractor (`PDFProcessor.extract_text_from_pdf`) -/

/-- The page-boundary marker the extractor writes before page `n`
(1-based): `"\n--- Page N ---\n"`. -/
def pageMarker (n : Nat) : String :=
  "\n--- Page " ++ toString n ++ " ---\n"

/-- The extraction loop: `text += marker; text += page_text` over the
enumerated pages, accumulating into `acc` with `n` pages already done. -/
def extractGo (acc : String) (n : Nat) : List String → String
| [] => acc
| page :: pages => extractGo (acc ++ pageMarker (n + 1) ++ page) (n + 1) pages

/-- `PDFProcessor.extract_text_from_pdf`: starts from the empty string and
appends, for each page in order, the page marker then the page's text. -/
def extract_text_from_pdf (pages : List String) : String :=
  extractGo "" 0 pages

/-! ### `PDFProcessor.create_documents` -/

/-- `PDFProcessor.create_documents`: splits the text with the processor's
splitter (`chunk_size=1000, chunk_overlap=200`) and wraps each chunk in a
`Document`. -/
def create_documents (text : String) : List Chunk :=
  (split_text pdf_text_splitter text.data).map fun cs => ⟨String.mk cs⟩

/-! ### Index Store operations -/

/-- `PDFProcessor.create_vector_store`: embeds every document (a call to
the external embedding capability per chunk, all of which fail together
when the capability is unavailable) and persists the store.  Returns the
store handle together with the list of chunk texts sent to the embedding
capability. -/
def create_vector_store (embedder : String) (embedOk : Bool) (documents : List Chunk) :
    Except BuildError VectorStore × List String :=
  if embedOk then
    (.ok { docs := documents.map (·.page_content), embedder := embedder },
     documents.map (·.page_content))
  else (.error .embeddingFailed, [])

/-- `PDFProcessor.load_vector_store`: raises `FileNotFoundError` when the
persist directory does not exist; otherwise constructs a store handle over
the persisted data with the current embedding function, embedding no
chunk (the second component lists the chunk texts sent to the embedding
capability during the call: none).  A present but unreadable persisted
index fails inside the external constructor (`corrupt`). -/
def load_vector_store (embedder : String) (s : PDFState) :
    Except LoadError VectorStore × List String :=
  match s.persisted with
  | none => (.error .notFound, [])
  | some p =>
    if p.wellFormed then (.ok { docs := p.docs, embedder := embedder }, [])
    else (.error .corrupt, [])

/-- The full rebuild path of `process_pdf`:
`extract_text_from_pdf`, then `create_documents`, then
`create_vector_store`.  Returns the build outcome and the chunk texts
embedded. -/
def rebuild (s : PDFState) (embedder : String) :
    Except BuildError VectorStore × List String :=
  match s.pdfPages with
  | none => (.error .extractionFailed, [])
  | some pages =>
    create_vector_store embedder s.embedOk
      (create_documents (extract_text_from_pdf pages))

/-- The observable outcome of one `process_pdf` call: its result, whether
the returned store came from the load path (`reused`), whether a load was
attempted, and the chunk texts embedded during the call. -/
structure ProcRun where
  result : Except BuildError VectorStore
  reused : Bool
  loadAttempted : Bool
  embedded : List String

/-- `PDFProcessor.process_pdf`: when `force_reprocess` is false and the
persist directory exists, try `load_vector_store` and return its store on
success; any load exception is caught and the call falls through to the
full rebuild; otherwise rebuild directly. -/
def process_pdf (s : PDFState) (embedder : String) (force_reprocess : Bool) : ProcRun :=
  if !force_reprocess && s.persisted.isSome then
    match load_vector_store embedder s with
    | (.ok vs, _) =>
      { result := .ok vs, reused := true, loadAttempted := true, embedded := [] }
    | (.error _, _) =>
      { result := (rebuild s embedder).1, reused := false, loadAttempted := true,
        embedded := (rebuild s embedder).2 }
  else
    { result := (rebuild s embedder).1, reused := false, loadAttempted := false,
      embedded := (rebuild s embedder).2 }

/-! ### Index Store similarity query

The similarity search itself runs inside the external Chroma store, whose
code is not part of this repository.  Modelled from the spec (§4.3):
embed the query, score every stored chunk, return the top-`k` by
descending score with ties broken by the original chunk ordinal
(lower ordinal first). -/

/-- An embedding vector (fixed-dimension numeric vector); integer
components keep the model exactly computable. -/
abbrev EmbVector := List Int

/-- A stored (chunk, vector) pair with its original ordinal. -/
structure StoredChunk where
  ordinal : Nat
  content : String
  vec : EmbVector
deriving DecidableEq

/-- Inner-product similarity between two vectors. -/
def dotProd (u v : EmbVector) : Int :=
  (List.zipWith (· * ·) u v).sum

/-- The similarity score of a stored chunk against the query vector. -/
def chunkScore (q : EmbVector) (c : StoredChunk) : Int :=
  dotProd q c.vec

/-- The retrieval ranking: `a` comes no later than `b` when `a` scores
strictly higher, or they tie and `a`'s ordinal is no larger. -/
def Ranked (q : EmbVector) (a b : StoredChunk) : Prop :=
  chunkScore q b < chunkScore q a ∨
    (chunkScore q a = chunkScore q b ∧ a.ordinal ≤ b.ordinal)

instance (q : EmbVector) (a b : StoredChunk) : Decidable (Ranked q a b) := by
  unfold Ranked
  infer_instance

/-- Insert a chunk into a ranked list, keeping the ranking. -/
def insertRanked (q : EmbVector) (x : StoredChunk) : List StoredChunk → List StoredChunk
| [] => [x]
| y :: ys => if Ranked q x y then x :: y :: ys else y :: insertRanked q x ys

/-- Rank all stored chunks by descending score, ties by ordinal
(insertion sort, stable by construction of `Ranked`). -/
def rankChunks (q : EmbVector) (l : List StoredChunk) : List StoredChunk :=
  l.foldr (insertRanked q) []

/-- Modelled from the spec: `query(index, queryText, k)` — score every
stored chunk against the query's embedding, rank, take the top `k`, and
return each retained chunk with its score. -/
def queryIndex (stored : List StoredChunk) (q : EmbVector) (k : Nat) :
    List (StoredChunk × Int) :=
  ((rankChunks q stored).take k).map fun c => (c, chunkScore q c)

/-! ### Conversation engine and session (`chatbot.py`) -/

/-- The retriever configuration handed to the chain:
`as_retriever(search_type="similarity", search_kwargs={"k": 3})`. -/
structure Retriever where
  search_type : String
  k : Nat
deriving DecidableEq

/-- `vector_store.as_retriever(...)` exactly as called in
`initialize_chatbot`. -/
def as_retriever (_vs : VectorStore) : Retriever :=
  { search_type := "similarity", k := 3 }

/-- The generation model handle (`ChatOpenAI`). -/
structure LLM where
  model_name : String
deriving DecidableEq

/-- The conversational retrieval chain built by `initialize_chatbot`. -/
structure Chain where
  llm : LLM
  retriever : Retriever
deriving DecidableEq

/-- A transcript turn's role. -/
inductive Role
| user
| assistant
deriving DecidableEq

/-- One entry of `st.session_state.messages`: role, content, and the
source chunks attached to assistant turns produced from a successful
response (empty otherwise — the source omits the `sources` key then). -/
structure Message where
  role : Role
  content : String
  sources : List String
deriving DecidableEq

/-- The Streamlit session state used by `chatbot.py`: the transcript, the
active store handle, the active chain, and the ready flag. -/
structure SessionState where
  messages : List Message
  vector_store : Option VectorStore
  chain : Option Chain
  pdf_processed : Bool
deriving DecidableEq

/-- `chatbot.initialize_chatbot`: inside one `try` block, run
`process_pdf` (with `force_reprocess` left at its default `False`),
construct the LLM, build the chain, and only then assign
`vector_store`, `chain` and `pdf_processed := true`; any exception makes
the call return `false` with the session state untouched.  The LLM and
chain constructors are external calls whose success is modelled by the
`llm_ok` and `chain_ok` flags. -/
def initialize_chatbot (st : SessionState) (world : PDFState)
    (embedder model_name : String) (llm_ok chain_ok : Bool) : Bool × SessionState :=
  match (process_pdf world embedder false).result with
  | .error _ => (false, st)
  | .ok vs =>
    if llm_ok then
      let llm : LLM := { model_name := model_name }
      if chain_ok then
        let chain : Chain := { llm := llm, retriever := as_retriever vs }
        (true,
         { st with vector_store := some vs, chain := some chain, pdf_processed := true })
      else (false, st)
    else (false, st)

/-- The chain's response: the answer text and the retrieved source
documents. -/
structure ChainResponse where
  answer : String
  source_documents : List String
deriving DecidableEq

/-- One chat turn of `chatbot.main`: append the user's message, invoke
the chain, and append either the assistant's answer with its sources or,
when`invoke` raises, an assistant turn whose content is
`"Error: " ++ the exception's text` (and no sources).  Nothing else in
the session state changes. -/
def handle_prompt (st : SessionState) (prompt : String)
    (invokeResult : Except String ChainResponse) : SessionState :=
  let st1 := { st with messages := st.messages ++ [Message.mk .user prompt []] }
  match invokeResult with
  | .ok r =>
    { st1 with
      messages := st1.messages ++ [Message.mk .assistant r.answer r.source_documents] }
  | .error e =>
    { st1 with
      messages := st1.messages ++ [Message.mk .assistant ("Error: " ++ e) []] }

/-! ### Concrete states used when instantiating the theorems -/

/-- A world whose persist directory holds a well-formed index recorded
under a different embedder identifier than the current one, and whose PDF
is unreadable (so only the load path can produce a store). -/
def mismatchState : PDFState :=
  { pdfPages := none,
    persisted := some { docs := ["x"], recordedEmbedder := "text-embedding-ada-002",
                        wellFormed := true },
    embedOk := true }

/-- A world whose persist directory exists but holds a corrupt
(unreadable) index, and whose PDF is unreadable. -/
def corruptState : PDFState :=
  { pdfPages := none,
    persisted := some { docs := ["d"], recordedEmbedder := "e", wellFormed := false },
    embedOk := true }

/-- A fresh session state. -/
def emptySession : SessionState :=
  { messages := [], vector_store := none, chain := none, pdf_processed := false }

/-! ## Theorems -/

/-- C1: with `force_reprocess = false`, whenever loading the persisted
index would fail for any reason, `process_pdf` does not propagate the
load error: its outcome is exactly the full rebuild's outcome
(extract, then split, then build), nothing is reused from the persisted
index, and — as the result type `Except BuildError VectorStore` shows —
no `LoadError` (`notFound`/`corrupt`) ever reaches the caller; when the
rebuild succeeds the rebuilt store is returned. -/
theorem process_pdf_load_failure_falls_through (s : PDFState) (embedder : String)
    (h : (load_vector_store embedder s).1.isOk = false) :
    (process_pdf s embedder false).result = (rebuild s embedder).1 ∧
    (process_pdf s embedder false).reused = false ∧
    (process_pdf s embedder false).embedded = (rebuild s embedder).2 := by
  cases hp : s.persisted with
  | none => simp [process_pdf, hp]
  | some p =>
    cases hw : p.wellFormed with
    | true =>
      exfalso
      simp [load_vector_store, hp, hw, Except.isOk, Except.toBool] at h
    | false =>
      simp [process_pdf, load_vector_store, hp, hw]

/-- Witness for C1 at a concrete world: the persist directory exists but
its index is corrupt, so loading fails, and `process_pdf` returns the
rebuild outcome. -/
theorem process_pdf_load_failure_falls_through_witness :
    (process_pdf corruptState "e" false).result = (rebuild corruptState "e").1 ∧
    (process_pdf corruptState "e" false).reused = false ∧
    (process_pdf corruptState "e" false).embedded = (rebuild corruptState "e").2 :=
  process_pdf_load_failure_falls_through corruptState "e" (by decide)

/-- C10: with `force_reprocess = true`, `process_pdf` never attempts to
load the persisted index — even when one exists — and its outcome is
exactly the full rebuild's outcome. -/
theorem process_pdf_force_always_rebuilds (s : PDFState) (embedder : String) :
    process_pdf s embedder true =
      { result := (rebuild s embedder).1, reused := false, loadAttempted := false,
        embedded := (rebuild s embedder).2 } :=
  rfl

/-- C2 counterexample: the claim "the pipeline reuses a persisted index
only when the embedder identifier recorded in its metadata matches the
current embedder" is false on the code.  In `mismatchState` the recorded
identifier is `"text-embedding-ada-002"`, the current embedder is
`"text-embedding-3-small"`, the PDF is unreadable (so no rebuild can
produce a store), and yet `process_pdf` returns the loaded store: the
code's check is existence of the persist directory plus load success
only. -/
theorem process_pdf_reuse_checks_only_existence :
    ¬ ((process_pdf mismatchState "text-embedding-3-small" false).reused = true →
        mismatchState.persisted.map (·.recordedEmbedder) =
          some "text-embedding-3-small") := by
  decide

/-- C2 amended: with `force_reprocess = false`, `process_pdf` reuses the
persisted index whenever the persist directory exists and the load
succeeds, regardless of the embedder identifier recorded in its
metadata: the loaded store (persisted documents, bound to the *current*
embedding function) is returned as-is. -/
theorem process_pdf_reuses_any_loadable_index (s : PDFState) (p : PersistedIndex)
    (embedder : String) (hp : s.persisted = some p) (hw : p.wellFormed = true) :
    process_pdf s embedder false =
      { result := .ok { docs := p.docs, embedder := embedder }, reused := true,
        loadAttempted := true, embedded := [] } := by
  simp [process_pdf, load_vector_store, hp, hw]

/-- Witness for the amended C2 at `mismatchState`: the well-formed
persisted index is reused even though its recorded embedder differs from
the current one. -/
theorem process_pdf_reuses_any_loadable_index_witness :
    process_pdf mismatchState "text-embedding-3-small" false =
      { result := .ok { docs := ["x"], embedder := "text-embedding-3-small" },
        reused := true, loadAttempted := true, embedded := [] } :=
  process_pdf_reuses_any_loadable_index mismatchState
    { docs := ["x"], recordedEmbedder := "text-embedding-ada-002", wellFormed := true }
    "text-embedding-3-small" rfl rfl

/-- C7: `load_vector_store` fails with `notFound` (the code's
`FileNotFoundError`) exactly when no persisted index exists at the
persist location; when a well-formed persisted index is present it
returns a usable store handle over the persisted documents, bound to the
current embedding function, and sends no chunk to the embedding
capability (no re-embedding). -/
theorem load_vector_store_contract (s : PDFState) (embedder : String) (p : PersistedIndex) :
    (s.persisted = none → (load_vector_store embedder s).1 = .error .notFound) ∧
    (s.persisted = some p → p.wellFormed = true →
      (load_vector_store embedder s).1 = .ok { docs := p.docs, embedder := embedder } ∧
      (load_vector_store embedder s).2 = []) := by
  constructor
  · intro hp
    simp [load_vector_store, hp]
  · intro hp hw
    simp [load_vector_store, hp, hw]

/-- Witness for C7 at two concrete worlds: a missing directory fails with
`notFound`; a present well-formed index loads with no chunk embedded. -/
theorem load_vector_store_contract_witness :
    (load_vector_store "e" { pdfPages := none, persisted := none, embedOk := true }).1 =
      .error .notFound ∧
    ((load_vector_store "text-embedding-3-small" mismatchState).1 =
        .ok { docs := ["x"], embedder := "text-embedding-3-small" } ∧
      (load_vector_store "text-embedding-3-small" mismatchState).2 = []) :=
  ⟨(load_vector_store_contract { pdfPages := none, persisted := none, embedOk := true }
      "e" { docs := [], recordedEmbedder := "", wellFormed := true }).1 rfl,
   (load_vector_store_contract mismatchState "text-embedding-3-small"
      { docs := ["x"], recordedEmbedder := "text-embedding-ada-002",
        wellFormed := true }).2 rfl rfl⟩

/-- C9: whenever any step of initialization fails — `process_pdf`, the
LLM constructor, or the chain constructor — `initialize_chatbot` returns
`false` and the session state (in particular `vector_store`, `chain` and
`pdf_processed`) is exactly what it was before the call: the three
fields are assigned only after every step has succeeded. -/
theorem initialize_chatbot_failure_preserves_state (st : SessionState) (world : PDFState)
    (embedder model_name : String) (llm_ok chain_ok : Bool)
    (h : (process_pdf world embedder false).result.isOk = false ∨
      llm_ok = false ∨ chain_ok = false) :
    initialize_chatbot st world embedder model_name llm_ok chain_ok = (false, st) := by
  unfold initialize_chatbot
  cases hr : (process_pdf world embedder false).result with
  | error e => rfl
  | ok vs =>
    rcases h with h | h | h
    · rw [hr] at h
      simp [Except.isOk, Except.toBool] at h
    · subst h
      simp
    · subst h
      cases llm_ok <;> simp

/-- Witness for C9 at a concrete failing world (unreadable PDF and a
corrupt persisted index): initialization returns `false` and the fresh
session is unchanged. -/
theorem initialize_chatbot_failure_preserves_state_witness :
    initialize_chatbot emptySession corruptState "e" "gpt-3.5-turbo" true true =
      (false, emptySession) :=
  initialize_chatbot_failure_preserves_state emptySession corruptState "e" "gpt-3.5-turbo"
    true true (Or.inl (by decide))

/-- C8: when the chain invocation of a question-answer turn raises, the
turn handler appends the user's question and then exactly one assistant
turn whose content is the error description (`"Error: " ++ e`); every
previously recorded turn is untouched, the rest of the session state
(store handle, chain, ready flag) is unchanged, and the next question is
processed normally on top of the resulting transcript. -/
theorem chat_turn_error_preserves_session (st : SessionState) (prompt e : String) :
    (handle_prompt st prompt (.error e)).messages =
      st.messages ++
        [Message.mk .user prompt [], Message.mk .assistant ("Error: " ++ e) []] ∧
    (handle_prompt st prompt (.error e)).vector_store = st.vector_store ∧
    (handle_prompt st prompt (.error e)).chain = st.chain ∧
    (handle_prompt st prompt (.error e)).pdf_processed = st.pdf_processed ∧
    (∀ q r, (handle_prompt (handle_prompt st prompt (.error e)) q (.ok r)).messages =
      (handle_prompt st prompt (.error e)).messages ++
        [Message.mk .user q [], Message.mk .assistant r.answer r.source_documents]) := by
  refine ⟨?_, rfl, rfl, rfl, fun q r => ?_⟩ <;> simp [handle_prompt]

/-- `String.join` of a cons. -/
theorem string_join_cons (s : String) (l : List String) :
    String.join (s :: l) = s ++ String.join l := by
  apply String.ext
  simp [String.join_eq]

/-- The extraction loop generalized over its accumulator and page
counter: it appends, for each remaining page, the marker of its 1-based
number followed by the page's text. -/
theorem extractGo_eq_append_join (pages : List String) :
    ∀ (acc : String) (n : Nat),
      extractGo acc n pages =
        acc ++ String.join ((pages.enumFrom n).map fun ip => pageMarker (ip.1 + 1) ++ ip.2) := by
  induction pages with
  | nil =>
    intro acc n
    simp [extractGo, String.join]
  | cons p ps ih =>
    intro acc n
    rw [extractGo, ih, List.enumFrom_cons, List.map_cons, string_join_cons,
      ← String.append_assoc, ← String.append_assoc]

/-- C4: `extract_text_from_pdf` returns the concatenation, in page
order, of the page-boundary marker `"\n--- Page N ---\n"` (with `N` the
1-based page number) followed immediately by that page's text. -/
theorem extract_text_from_pdf_concat (pages : List String) :
    extract_text_from_pdf pages =
      String.join (pages.enum.map fun ip => pageMarker (ip.1 + 1) ++ ip.2) := by
  rw [extract_text_from_pdf, extractGo_eq_append_join, List.enum,
    String.empty_append]

/-- C5: the chunker rejects `overlap >= maxSize` with a `ConfigError`
during configuration validation, before touching the text (no I/O has
happened); with a valid configuration, every non-empty text shorter than
`maxSize` splits into exactly one chunk (the whole text), and the empty
text splits into the empty sequence. -/
theorem split_config_and_edge_cases (maxSize overlap : Nat) (text : List Char) :
    (maxSize ≤ overlap → split maxSize overlap text = .error .overlapTooLarge) ∧
    (overlap < maxSize → text ≠ [] → text.length < maxSize →
      split maxSize overlap text = .ok [text]) ∧
    (overlap < maxSize → split maxSize overlap [] = .ok []) := by
  refine ⟨fun h => ?_, fun h hne hlen => ?_, fun h => ?_⟩
  · simp [split, mkTextSplitter, h, Except.map]
  · have hno : ¬ maxSize ≤ overlap := by omega
    simp only [split, mkTextSplitter, hno, dite_false, Except.map, split_text]
    rw [splitChunks]
    simp [List.isEmpty_iff, hne, Nat.le_of_lt hlen]
  · have hno : ¬ maxSize ≤ overlap := by omega
    simp only [split, mkTextSplitter, hno, dite_false, Except.map, split_text]
    rw [splitChunks]
    simp

/-- Witness for C5 at concrete inputs: `overlap=7 ≥ maxSize=5` is a
`ConfigError`; the two-character text splits to one chunk under
`maxSize=5, overlap=2`; the empty text splits to no chunk. -/
theorem split_config_and_edge_cases_witness :
    split 5 7 "ab".data = .error .overlapTooLarge ∧
    split 5 2 "ab".data = .ok ["ab".data] ∧
    split 5 2 [] = .ok [] :=
  ⟨(split_config_and_edge_cases 5 7 "ab".data).1 (by decide),
   (split_config_and_edge_cases 5 2 "ab".data).2.1 (by decide) (by decide) (by decide),
   (split_config_and_edge_cases 5 2 []).2.2 (by decide)⟩

/-- C6: the chunker's split is a pure, deterministic function of its
input text and configuration — two calls with identical text and the
configuration `maxSize=1000, overlap=200` yield identical chunk
sequences. -/
theorem split_deterministic (t₁ t₂ : List Char) (h : t₁ = t₂) :
    split 1000 200 t₁ = split 1000 200 t₂ := by
  rw [h]

/-- Witness for C6: two calls on the same concrete text agree. -/
theorem split_deterministic_witness :
    split 1000 200 "same input".data = split 1000 200 "same input".data :=
  split_deterministic "same input".data "same input".data rfl

/-- The retrieval ranking is total: when `x` is not ranked before `y`,
`y` is ranked before `x`. -/
theorem ranked_total (q : EmbVector) (x y : StoredChunk) (h : ¬ Ranked q x y) :
    Ranked q y x := by
  unfold Ranked at *
  omega

/-- The retrieval ranking is transitive. -/
theorem ranked_trans (q : EmbVector) (x y z : StoredChunk)
    (hxy : Ranked q x y) (hyz : Ranked q y z) : Ranked q x z := by
  unfold Ranked at *
  omega

/-- Inserting adds exactly one element. -/
theorem length_insertRanked (q : EmbVector) (x : StoredChunk) (l : List StoredChunk) :
    (insertRanked q x l).length = l.length + 1 := by
  induction l with
  | nil => rfl
  | cons y ys ih =>
    by_cases h : Ranked q x y
    · simp [insertRanked, h]
    · simp [insertRanked, h, ih]

/-- Ranking permutes the stored chunks: the length is unchanged. -/
theorem length_rankChunks (q : EmbVector) (l : List StoredChunk) :
    (rankChunks q l).length = l.length := by
  induction l with
  | nil => rfl
  | cons x xs ih =>
    have h1 : rankChunks q (x :: xs) = insertRanked q x (rankChunks q xs) := rfl
    rw [h1, length_insertRanked, ih, List.length_cons]

/-- Membership after insertion. -/
theorem mem_insertRanked (q : EmbVector) (x z : StoredChunk) (l : List StoredChunk) :
    z ∈ insertRanked q x l ↔ z = x ∨ z ∈ l := by
  induction l with
  | nil => simp [insertRanked]
  | cons y ys ih =>
    by_cases h : Ranked q x y
    · simp only [insertRanked, if_pos h, List.mem_cons]
    · simp only [insertRanked, if_neg h, List.mem_cons, ih]
      tauto

/-- Insertion preserves the ranking invariant. -/
theorem pairwise_insertRanked (q : EmbVector) (x : StoredChunk) (l : List StoredChunk)
    (hl : l.Pairwise (Ranked q)) : (insertRanked q x l).Pairwise (Ranked q) := by
  induction l with
  | nil => simp [insertRanked]
  | cons y ys ih =>
    rcases List.pairwise_cons.mp hl with ⟨hy, hys⟩
    by_cases h : Ranked q x y
    · rw [insertRanked, if_pos h]
      refine List.pairwise_cons.mpr ⟨?_, List.pairwise_cons.mpr ⟨hy, hys⟩⟩
      intro z hz
      rcases List.mem_cons.mp hz with rfl | hz'
      · exact h
      · exact ranked_trans q x y z h (hy z hz')
    · rw [insertRanked, if_neg h]
      refine List.pairwise_cons.mpr ⟨?_, ih hys⟩
      intro z hz
      rcases (mem_insertRanked q x z ys).mp hz with hzx | hz'
      · rw [hzx]
        exact ranked_total q x y h
      · exact hy z hz'

/-- The ranked list is sorted by the retrieval ranking. -/
theorem pairwise_rankChunks (q : EmbVector) (l : List StoredChunk) :
    (rankChunks q l).Pairwise (Ranked q) := by
  induction l with
  | nil => simp [rankChunks]
  | cons x xs ih =>
    have : rankChunks q (x :: xs) = insertRanked q x (rankChunks q xs) := rfl
    rw [this]
    exact pairwise_insertRanked q x (rankChunks q xs) ih

/-- C3: for every index and query, `queryIndex` returns exactly
`min k (stored chunk count)` results, ordered by non-increasing
similarity score with ties broken by the original chunk ordinal (lower
ordinal first); and the retrieval `k` the conversation engine passes to
`as_retriever` in `initialize_chatbot` is 3. -/
theorem queryIndex_ordering (stored : List StoredChunk) (q : EmbVector) (k : Nat)
    (vs : VectorStore) :
    (queryIndex stored q k).length = min k stored.length ∧
    (queryIndex stored q k).Pairwise
      (fun a b => b.2 < a.2 ∨ (a.2 = b.2 ∧ a.1.ordinal ≤ b.1.ordinal)) ∧
    (as_retriever vs).k = 3 := by
  refine ⟨?_, ?_, rfl⟩
  · simp [queryIndex, List.length_take, length_rankChunks]
  · have hs : (rankChunks q stored).Pairwise (Ranked q) := pairwise_rankChunks q stored
    have ht : ((rankChunks q stored).take k).Pairwise (Ranked q) :=
      List.Pairwise.sublist (List.take_sublist k (rankChunks q stored)) hs
    rw [queryIndex, List.pairwise_map]
    exact ht.imp fun hab => hab

end PdfChatbot
